import Mathlib

/-!
Shallow embedding of the browser client of the Automatic Number Plate
Recognition system (static/js/script.js) together with a spec-modelled
backend Validator/Normalizer.

The client handlers (`uploadImage`, `captureFromWebcam`, `clearAll`,
`downloadResult`, `addToHistory`) are translated from script.js.  The DOM
and browser state touched by the handlers is collected into one record
`AppState`; the outcome of the `fetch("/upload")` call is passed to a
handler as two explicit parameters: `ok` (the value of `res.ok`) and
`body` (the JSON body parsed by `res.json()`, `none` when the fetch
rejects or the body is not JSON — both paths raise into the same `catch`
block).  Wall-clock quantities (`performance.now()` differences and
`new Date()` timestamps) are explicit `Nat` parameters.
-/

/-- Kind of a toast raised by showNotification (script.js line 337):
"success", "error", "warning" or "info". -/
inductive NotifKind where
  | success
  | error
  | warning
  | info
  deriving DecidableEq

/-- One toast notification: its kind and its message text. -/
structure Notification where
  kind : NotifKind
  message : String
  deriving DecidableEq

/-- Rendered content of the confidence DOM element: untouched initial
markup, the literal placeholder string "N/A", or the string
(value * 100).toFixed(2) + "%" for the given confidence value. -/
inductive ConfText where
  | initial
  | na
  | percent (value : Rat)
  deriving DecidableEq

/-- One entry of the detection history (script.js lines 298-303):
plate text, optional confidence, processing time in ms, and a timestamp
(new Date().toLocaleString(), abstracted to a Nat clock reading). -/
structure HistoryItem where
  plate : String
  confidence : Option Rat
  processTime : Nat
  timestamp : Nat
  deriving DecidableEq

/-- The JSON body of a server response to POST /upload as the client
reads it: optional string field number_plate and optional numeric field
confidence (JS numbers modelled as rationals). -/
structure RespData where
  number_plate : Option String
  confidence : Option Rat
  deriving DecidableEq

/-- The client state touched by the script.js handlers: file input,
preview, camera, the result display elements, the two action buttons,
the in-memory detectionHistory array, the localStorage entry under key
"anprHistory" (none when the key was never set), the notifications shown
so far, and a counter of fetch requests issued. -/
structure AppState where
  hasFile : Bool
  previewVisible : Bool
  hasCamera : Bool
  plateText : String
  plateDetected : Bool
  confText : ConfText
  procTimeText : Option Nat
  resultDetailsVisible : Bool
  downloadDisabled : Bool
  detectBtnDisabled : Bool
  captureBtnDisabled : Bool
  detectionHistory : List HistoryItem
  storedHistory : Option (List HistoryItem)
  notifications : List Notification
  requests : Nat
  deriving DecidableEq

/-- JS truthiness of data.number_plate: the field is present and is a
non-empty string. -/
def jsTruthyStr : Option String → Bool
  | none => false
  | some s => !(s == "")

/-- The branch condition of script.js lines 73 and 222:
data.number_plate && data.number_plate !== "No plate detected". -/
def isDetected (d : RespData) : Bool :=
  match d.number_plate with
  | none => false
  | some s => !(s == "") && !(s == "No plate detected")

/-- script.js lines 78 and 226: data.confidence ? (data.confidence *
100).toFixed(2) + "%" : "N/A".  A JS number is truthy exactly when it is
present and non-zero (NaN cannot arise from JSON.parse of a number). -/
def renderConf : Option Rat → ConfText
  | none => ConfText.na
  | some v => if v = 0 then ConfText.na else ConfText.percent v

/-- The no-plate message written by the else branches (lines 89, 237). -/
def noPlateMsg : String := "❌ No plate detected"

def chooseImageWarning : Notification :=
  { kind := NotifKind.warning, message := "⚠️ Please choose an image first!" }

def uploadSuccessNotif : Notification :=
  { kind := NotifKind.success, message := "✅ Number plate detected successfully!" }

def noPlateFoundNotif : Notification :=
  { kind := NotifKind.error, message := "❌ No number plate found in the image" }

def uploadFailedNotif : Notification :=
  { kind := NotifKind.error, message := "⚠️ Failed to process image. Please try again." }

def enableCameraWarning : Notification :=
  { kind := NotifKind.warning, message := "⚠️ Please enable camera first!" }

def captureSuccessNotif : Notification :=
  { kind := NotifKind.success, message := "✅ Number plate detected from camera!" }

def captureFailedNotif : Notification :=
  { kind := NotifKind.error, message := "⚠️ Failed to capture image" }

def clearedNotif : Notification :=
  { kind := NotifKind.info, message := "🗑️ All inputs and results cleared!" }

def downloadSuccessNotif : Notification :=
  { kind := NotifKind.success, message := "📥 Result downloaded successfully!" }

def downloadWarnNotif : Notification :=
  { kind := NotifKind.warning, message := "⚠️ No valid result to download!" }

/-- script.js lines 297-317 (addToHistory): build the history item,
unshift it onto detectionHistory, truncate with slice(0, 10) when the
length exceeds 10, and persist the resulting array to localStorage under
key "anprHistory".  (The trailing loadDetectionHistory() call only
re-renders the list.) -/
def addToHistory (st : AppState) (plate : String) (conf : Option Rat)
    (processTime timestamp : Nat) : AppState :=
  let h := ({ plate := plate, confidence := conf, processTime := processTime,
              timestamp := timestamp } : HistoryItem) :: st.detectionHistory
  let h := if h.length > 10 then h.take 10 else h
  { st with detectionHistory := h, storedHistory := some h }

/-- script.js lines 32-107 (uploadImage).  If no file is selected, show a
warning and return (no fetch).  Otherwise issue the fetch; a non-ok
status throws (line 65), so the success/no-plate branch runs only when
ok is true and the body parsed; every other outcome lands in the catch
block which writes the processing-error state.  The finally block
re-enables the detect button on every completed path. -/
def uploadImage (st : AppState) (ok : Bool) (body : Option RespData)
    (processTime timestamp : Nat) : AppState :=
  if st.hasFile = false then
    { st with notifications := st.notifications ++ [chooseImageWarning] }
  else
    let st1 := { st with requests := st.requests + 1 }
    match ok, body with
    | true, some data =>
        if isDetected data then
          let plate := data.number_plate.getD ""
          let st2 := { st1 with
            plateText := plate,
            plateDetected := true,
            confText := renderConf data.confidence,
            procTimeText := some processTime,
            resultDetailsVisible := true,
            downloadDisabled := false }
          let st3 := addToHistory st2 plate data.confidence processTime timestamp
          { st3 with
            notifications := st3.notifications ++ [uploadSuccessNotif],
            detectBtnDisabled := false }
        else
          { st1 with
            plateText := noPlateMsg,
            plateDetected := false,
            resultDetailsVisible := false,
            downloadDisabled := true,
            notifications := st1.notifications ++ [noPlateFoundNotif],
            detectBtnDisabled := false }
    | _, _ =>
        { st1 with
          plateText := "⚠️ Processing Error!",
          plateDetected := false,
          resultDetailsVisible := false,
          downloadDisabled := true,
          notifications := st1.notifications ++ [uploadFailedNotif],
          detectBtnDisabled := false }

/-- script.js lines 169-255 (captureFromWebcam).  If the camera stream is
off, show a warning and return.  Otherwise capture and POST the frame.
Unlike uploadImage there is NO res.ok check: res.json() is called on the
response regardless of its HTTP status (line 218), so the ok flag is an
ignored parameter; the catch block runs only when the fetch rejects or
the body fails to parse as JSON. -/
def captureFromWebcam (st : AppState) (_ok : Bool) (body : Option RespData)
    (processTime timestamp : Nat) : AppState :=
  if st.hasCamera = false then
    { st with notifications := st.notifications ++ [enableCameraWarning] }
  else
    let st1 := { st with requests := st.requests + 1 }
    match body with
    | some data =>
        if isDetected data then
          let plate := data.number_plate.getD ""
          let st2 := { st1 with
            plateText := plate,
            plateDetected := true,
            confText := renderConf data.confidence,
            procTimeText := some processTime,
            resultDetailsVisible := true,
            downloadDisabled := false }
          let st3 := addToHistory st2 plate data.confidence processTime timestamp
          { st3 with
            notifications := st3.notifications ++ [captureSuccessNotif],
            captureBtnDisabled := false }
        else
          { st1 with
            plateText := noPlateMsg,
            plateDetected := false,
            resultDetailsVisible := false,
            downloadDisabled := true,
            notifications := st1.notifications ++ [noPlateFoundNotif],
            captureBtnDisabled := false }
    | none =>
        { st1 with
          plateText := "⚠️ Capture failed!",
          plateDetected := false,
          resultDetailsVisible := false,
          downloadDisabled := true,
          notifications := st1.notifications ++ [captureFailedNotif],
          captureBtnDisabled := false }

/-- script.js lines 275-294 (clearAll): empty the file input, hide the
preview, reset the plate display to "Waiting for detection...", hide the
result details, disable the download and detect buttons, and show an
info toast.  detectionHistory and localStorage are not touched. -/
def clearAll (st : AppState) : AppState :=
  { st with
    hasFile := false,
    previewVisible := false,
    plateText := "Waiting for detection...",
    plateDetected := false,
    resultDetailsVisible := false,
    downloadDisabled := true,
    detectBtnDisabled := true,
    notifications := st.notifications ++ [clearedNotif] }

/-- needle is a leading segment of hay (character lists). -/
def listPrefixOf : List Char → List Char → Bool
  | [], _ => true
  | _ :: _, [] => false
  | a :: as, b :: bs => a == b && listPrefixOf as bs

/-- needle occurs contiguously somewhere in hay (character lists). -/
def containsSub (needle : List Char) : List Char → Bool
  | [] => listPrefixOf needle []
  | c :: rest => listPrefixOf needle (c :: rest) || containsSub needle rest

/-- JS String.prototype.includes: hay.includes(needle). -/
def strIncludes (hay needle : String) : Bool :=
  containsSub needle.data hay.data

/-- The text file produced by downloadResult: its content and name. -/
structure DownloadFile where
  content : String
  filename : String
  deriving DecidableEq

/-- script.js lines 258-272 (downloadResult): when the displayed plate
text is truthy (non-empty) and includes none of "Waiting", "No plate",
"Detecting", "Error", generate and download a text file with the plate
and a timestamp and show a success toast; otherwise show a warning and
produce no file.  The `now` parameter stands for new Date(). -/
def downloadResult (st : AppState) (now : Nat) : AppState × Option DownloadFile :=
  let t := st.plateText
  if !(t == "") && !(strIncludes t "Waiting") && !(strIncludes t "No plate") &&
      !(strIncludes t "Detecting") && !(strIncludes t "Error") then
    ({ st with notifications := st.notifications ++ [downloadSuccessNotif] },
     some { content := "Detected Number Plate: " ++ t ++ "\nTimestamp: " ++ toString now,
            filename := "number_plate_" ++ toString now ++ ".txt" })
  else
    ({ st with notifications := st.notifications ++ [downloadWarnNotif] }, none)

/-- Modelled from the spec: the server-side invariant on the
DetectionResult payload (spec §3: "if plate is present ... confidence is
present and in [0,1]"), stated on the client-facing JSON body; the
backend that produces it is not part of the available source. -/
def DetectionResultInv (d : RespData) : Prop :=
  jsTruthyStr d.number_plate = true →
    ∃ c, d.confidence = some c ∧ 0 ≤ c ∧ c ≤ 1

/-- Modelled from the spec: a raw recognition-engine outcome (spec §3
RecognitionOutcome), raw text plus engine confidence; the backend
recognizer is not part of the available source. -/
structure RecognitionOutcome where
  raw : String
  confidence : Rat

/-- Modelled from the spec: the configuration surface consumed by the
Validator (spec §6 plateFormatPattern), a plate-format policy given as a
predicate on the normalized string. -/
structure ValidatorConfig where
  plateFormatPattern : String → Bool

/-- Characters the plate alphabet allows (spec §4.4: uppercase letters
plus digits). -/
def plateAllowedChar (c : Char) : Bool :=
  c.isUpper || c.isDigit

/-- Modelled from the spec: the Validator's normalization step (spec
§4.5): strip whitespace, remove disallowed characters, uppercase. -/
def normalizePlate (s : String) : String :=
  String.mk ((s.data.map Char.toUpper).filter plateAllowedChar)

/-- A validated, normalized plate with its confidence. -/
structure NormalizedPlate where
  plate : String
  confidence : Rat
  deriving DecidableEq

/-- Modelled from the spec: the Validator (spec §4.5
validate(RecognitionOutcome) -> NormalizedPlate | rejected): normalize
the raw text, then accept only a non-empty result matching the
configured plate-format pattern; a failing result is rejected, not
corrected.  The backend validator is not part of the available source. -/
def validate (cfg : ValidatorConfig) (o : RecognitionOutcome) : Option NormalizedPlate :=
  let n := normalizePlate o.raw
  if !(n == "") && cfg.plateFormatPattern n then
    some { plate := n, confidence := o.confidence }
  else
    none

/-- A ready client state: a file chosen and a live camera, nothing
detected yet, empty history. -/
def stLive : AppState :=
  { hasFile := true,
    previewVisible := true,
    hasCamera := true,
    plateText := "Waiting for detection...",
    plateDetected := false,
    confText := ConfText.initial,
    procTimeText := none,
    resultDetailsVisible := false,
    downloadDisabled := true,
    detectBtnDisabled := false,
    captureBtnDisabled := false,
    detectionHistory := [],
    storedHistory := none,
    notifications := [],
    requests := 0 }

/-- Claim C8: clearAll changes only the input/preview/result UI state:
after clearAll the file input is empty, the preview is hidden, the plate
display reads "Waiting for detection...", the download and detect
buttons are disabled, and the in-memory detection history and the
persisted localStorage entry are unchanged. -/
theorem clearAll_frame (st : AppState) :
    (clearAll st).hasFile = false ∧
    (clearAll st).previewVisible = false ∧
    (clearAll st).plateText = "Waiting for detection..." ∧
    (clearAll st).plateDetected = false ∧
    (clearAll st).resultDetailsVisible = false ∧
    (clearAll st).downloadDisabled = true ∧
    (clearAll st).detectBtnDisabled = true ∧
    (clearAll st).detectionHistory = st.detectionHistory ∧
    (clearAll st).storedHistory = st.storedHistory ∧
    (clearAll st).requests = st.requests := by
  simp [clearAll]

/-- Claim C9: when no file is selected, uploadImage shows a warning
toast and returns immediately: the resulting state is the old state with
exactly one warning notification appended, so the plate display, result
details, download-button state, detection history, localStorage and the
request counter are all unchanged and no network request is issued. -/
theorem uploadImage_noFile (st : AppState) (ok : Bool) (body : Option RespData)
    (pt ts : Nat) (h : st.hasFile = false) :
    uploadImage st ok body pt ts
      = { st with notifications := st.notifications ++ [chooseImageWarning] } ∧
    chooseImageWarning.kind = NotifKind.warning ∧
    (uploadImage st ok body pt ts).requests = st.requests ∧
    (uploadImage st ok body pt ts).plateText = st.plateText ∧
    (uploadImage st ok body pt ts).resultDetailsVisible = st.resultDetailsVisible ∧
    (uploadImage st ok body pt ts).downloadDisabled = st.downloadDisabled ∧
    (uploadImage st ok body pt ts).detectionHistory = st.detectionHistory := by
  refine ⟨?_, rfl, ?_, ?_, ?_, ?_, ?_⟩ <;> simp [uploadImage, h]

/-- Witness for uploadImage_noFile at a concrete state with no file. -/
theorem uploadImage_noFile_witness :
    uploadImage { stLive with hasFile := false } true none 3 0
      = { { stLive with hasFile := false } with
          notifications := ({ stLive with hasFile := false } : AppState).notifications
            ++ [chooseImageWarning] } :=
  (uploadImage_noFile { stLive with hasFile := false } true none 3 0 rfl).1

/-- Claim C5: the detection history is bounded by 10.  After every call
to addToHistory the in-memory detectionHistory has at most 10 entries —
with no assumption on the incoming state — and the copy persisted under
the localStorage key is exactly that list, so it satisfies the same
bound; the bound is preserved by uploadImage, captureFromWebcam and
clearAll, the only operations that touch the history. -/
theorem historyBoundAux (x : HistoryItem) (l : List HistoryItem) :
    (if (x :: l).length > 10 then (x :: l).take 10 else x :: l).length ≤ 10 := by
  by_cases hlen : (x :: l).length > 10
  · rw [if_pos hlen]
    simp only [List.length_take]
    omega
  · rw [if_neg hlen]
    omega

theorem addToHistory_bounded :
    (∀ st plate conf pt ts,
      ((addToHistory st plate conf pt ts).detectionHistory).length ≤ 10 ∧
      (addToHistory st plate conf pt ts).storedHistory
        = some (addToHistory st plate conf pt ts).detectionHistory) ∧
    (∀ st ok body pt ts, st.detectionHistory.length ≤ 10 →
      ((uploadImage st ok body pt ts).detectionHistory).length ≤ 10 ∧
      ((captureFromWebcam st ok body pt ts).detectionHistory).length ≤ 10 ∧
      ((clearAll st).detectionHistory).length ≤ 10) := by
  refine ⟨fun st plate conf pt ts => ⟨historyBoundAux _ _, by simp [addToHistory]⟩,
    fun st ok body pt ts h => ⟨?_, ?_, ?_⟩⟩
  · by_cases hf : st.hasFile = false
    · simp [uploadImage, hf, h]
    · rcases ok with _ | _
      · simp [uploadImage, hf, h]
      · rcases body with _ | data
        · simp [uploadImage, hf, h]
        · by_cases hd : isDetected data = true
          · simpa [uploadImage, hf, hd, addToHistory] using historyBoundAux _ _
          · simp [uploadImage, hf, hd, h]
  · by_cases hc : st.hasCamera = false
    · simp [captureFromWebcam, hc, h]
    · rcases body with _ | data
      · simp [captureFromWebcam, hc, h]
      · by_cases hd : isDetected data = true
        · simpa [captureFromWebcam, hc, hd, addToHistory] using historyBoundAux _ _
        · simp [captureFromWebcam, hc, hd, h]
  · simpa [clearAll] using h

/-- Witness for addToHistory_bounded: the preservation part applied at a
concrete state with an empty history. -/
theorem addToHistory_bounded_witness :
    ((uploadImage stLive true
        (some { number_plate := some "TN09AB1234", confidence := some (9/10) }) 5 0).detectionHistory).length ≤ 10 :=
  (addToHistory_bounded.2 stLive true
    (some { number_plate := some "TN09AB1234", confidence := some (9/10) }) 5 0 (by decide)).1

/-- A valid-plate response body used as the concrete input of several
counterexamples. -/
def respPlateA : RespData := { number_plate := some "ABC123", confidence := some (1/2) }

def respPlateB : RespData := { number_plate := some "KA05MN8822", confidence := some (4/5) }

def respPlateC : RespData := { number_plate := some "DL01XY4455", confidence := some (3/5) }

/-- Claim C1 counterexample: a server response with a non-ok HTTP status
whose body carries a valid plate ("ABC123").  The claim's condition on
number_plate holds, yet the upload handler throws on res.ok and renders
the processing-error state — neither the detected-plate state nor the
no-plate outcome — so the claimed iff/otherwise dichotomy fails on this
response. -/
theorem detection_iff_cex :
    isDetected respPlateA = true ∧
    (uploadImage stLive false (some respPlateA) 5 0).plateDetected = false ∧
    (uploadImage stLive false (some respPlateA) 5 0).plateText = "⚠️ Processing Error!" ∧
    ¬(uploadImage stLive false (some respPlateA) 5 0).plateText = noPlateMsg := by
  decide

/-- Claim C1 (amended): for every server response that the handler
carries to the branch point — for the upload path an ok response with a
parsed JSON body, for the capture path a response of any HTTP status
with a parsed JSON body — the client renders the detected-plate state
(plate text shown and marked detected, result details shown, download
enabled, success toast) iff number_plate is present, non-empty and not
the sentinel "No plate detected", and otherwise renders the no-plate
outcome (no-plate message, details hidden, download disabled). -/
theorem detection_iff (st : AppState) (data : RespData) (ok : Bool) (pt ts : Nat)
    (hf : st.hasFile = true) (hcam : st.hasCamera = true) :
    ((uploadImage st true (some data) pt ts).plateDetected = isDetected data) ∧
    ((captureFromWebcam st ok (some data) pt ts).plateDetected = isDetected data) ∧
    (isDetected data = true →
      (uploadImage st true (some data) pt ts).plateText = data.number_plate.getD "" ∧
      (uploadImage st true (some data) pt ts).resultDetailsVisible = true ∧
      (uploadImage st true (some data) pt ts).downloadDisabled = false ∧
      (uploadImage st true (some data) pt ts).notifications
        = st.notifications ++ [uploadSuccessNotif] ∧
      (captureFromWebcam st ok (some data) pt ts).plateText = data.number_plate.getD "" ∧
      (captureFromWebcam st ok (some data) pt ts).resultDetailsVisible = true ∧
      (captureFromWebcam st ok (some data) pt ts).downloadDisabled = false ∧
      (captureFromWebcam st ok (some data) pt ts).notifications
        = st.notifications ++ [captureSuccessNotif]) ∧
    (isDetected data = false →
      (uploadImage st true (some data) pt ts).plateText = noPlateMsg ∧
      (uploadImage st true (some data) pt ts).resultDetailsVisible = false ∧
      (uploadImage st true (some data) pt ts).downloadDisabled = true ∧
      (uploadImage st true (some data) pt ts).notifications
        = st.notifications ++ [noPlateFoundNotif] ∧
      (captureFromWebcam st ok (some data) pt ts).plateText = noPlateMsg ∧
      (captureFromWebcam st ok (some data) pt ts).resultDetailsVisible = false ∧
      (captureFromWebcam st ok (some data) pt ts).downloadDisabled = true ∧
      (captureFromWebcam st ok (some data) pt ts).notifications
        = st.notifications ++ [noPlateFoundNotif]) := by
  by_cases hd : isDetected data = true
  · refine ⟨?_, ?_, fun _ => ?_, fun hcontra => absurd hd (by simp [hcontra])⟩ <;>
      simp [uploadImage, captureFromWebcam, addToHistory, hf, hcam, hd]
  · rw [Bool.not_eq_true] at hd
    refine ⟨?_, ?_, fun hcontra => absurd hd (by simp [hcontra]), fun _ => ?_⟩ <;>
      simp [uploadImage, captureFromWebcam, hf, hcam, hd]

/-- Witness for detection_iff at a concrete ready state and a concrete
ok response carrying plate "ABC123". -/
theorem detection_iff_witness :
    (uploadImage stLive true (some respPlateA) 5 0).plateDetected = isDetected respPlateA :=
  (detection_iff stLive respPlateA true 5 0 rfl rfl).1

/-- Claim C2 counterexample: the capture handler never checks res.ok; a
non-ok response whose body is valid JSON with a plate is processed as a
success — the detected state is rendered and a history entry is added —
instead of the claimed processing-error state. -/
theorem errorState_cex :
    (captureFromWebcam stLive false (some respPlateB) 9 1).plateDetected = true ∧
    (captureFromWebcam stLive false (some respPlateB) 9 1).plateText = "KA05MN8822" ∧
    ¬(captureFromWebcam stLive false (some respPlateB) 9 1).plateText = "⚠️ Capture failed!" ∧
    ((captureFromWebcam stLive false (some respPlateB) 9 1).detectionHistory).length
      = stLive.detectionHistory.length + 1 := by
  decide

/-- Claim C2 (amended): the upload handler, on a non-ok HTTP status (or
a body that fails to parse), displays the processing-error message,
hides the result details, disables download, re-enables the detect
button and leaves the detection history and localStorage untouched; the
capture handler does not inspect the HTTP status and enters its error
state (same shape, message "Capture failed") exactly when reading the
response body fails. -/
theorem errorState_handling (st : AppState) (ok : Bool) (body : Option RespData)
    (pt ts : Nat) (hf : st.hasFile = true) (hcam : st.hasCamera = true) :
    ((uploadImage st false body pt ts).plateText = "⚠️ Processing Error!" ∧
     (uploadImage st false body pt ts).plateDetected = false ∧
     (uploadImage st false body pt ts).resultDetailsVisible = false ∧
     (uploadImage st false body pt ts).downloadDisabled = true ∧
     (uploadImage st false body pt ts).detectBtnDisabled = false ∧
     (uploadImage st false body pt ts).detectionHistory = st.detectionHistory ∧
     (uploadImage st false body pt ts).storedHistory = st.storedHistory) ∧
    ((uploadImage st true none pt ts).plateText = "⚠️ Processing Error!") ∧
    ((captureFromWebcam st ok none pt ts).plateText = "⚠️ Capture failed!" ∧
     (captureFromWebcam st ok none pt ts).plateDetected = false ∧
     (captureFromWebcam st ok none pt ts).resultDetailsVisible = false ∧
     (captureFromWebcam st ok none pt ts).downloadDisabled = true ∧
     (captureFromWebcam st ok none pt ts).captureBtnDisabled = false ∧
     (captureFromWebcam st ok none pt ts).detectionHistory = st.detectionHistory ∧
     (captureFromWebcam st ok none pt ts).storedHistory = st.storedHistory) := by
  refine ⟨?_, ?_, ?_⟩ <;> simp [uploadImage, captureFromWebcam, hf, hcam]

/-- Witness for errorState_handling at a concrete ready state. -/
theorem errorState_handling_witness :
    (uploadImage stLive false (some respPlateB) 2 0).plateText = "⚠️ Processing Error!" :=
  (errorState_handling stLive true (some respPlateB) 2 0 rfl rfl).1.1

/-- Claim C3 counterexample: a non-ok upload response whose body carries
the valid plate "DL01XY4455".  The claim's trigger condition on
number_plate holds, yet addToHistory is not invoked: the history and the
persisted copy are unchanged, refuting "invoked exactly when". -/
theorem history_recording_cex :
    isDetected respPlateC = true ∧
    (uploadImage stLive false (some respPlateC) 4 2).detectionHistory
      = stLive.detectionHistory ∧
    (uploadImage stLive false (some respPlateC) 4 2).storedHistory
      = stLive.storedHistory := by
  decide

/-- Claim C3 (amended): among responses carried to the branch point (an
ok parsed response on the upload path; any parsed response on the
capture path), addToHistory runs exactly when number_plate is present,
non-empty and differs from "No plate detected": in that case the new
entry is inserted at the front of the history (the resulting list is the
new item consed onto the old history, truncated to 10) and the result is
persisted to localStorage; in every other case, including error
outcomes, the history and the persisted copy are unchanged. -/
theorem history_recording (st : AppState) (data : RespData) (ok : Bool) (pt ts : Nat)
    (hf : st.hasFile = true) (hcam : st.hasCamera = true) :
    (isDetected data = true →
      (uploadImage st true (some data) pt ts).detectionHistory
        = (if (({ plate := data.number_plate.getD "", confidence := data.confidence,
                  processTime := pt, timestamp := ts } : HistoryItem)
              :: st.detectionHistory).length > 10
           then (({ plate := data.number_plate.getD "", confidence := data.confidence,
                    processTime := pt, timestamp := ts } : HistoryItem)
              :: st.detectionHistory).take 10
           else ({ plate := data.number_plate.getD "", confidence := data.confidence,
                   processTime := pt, timestamp := ts } : HistoryItem)
              :: st.detectionHistory) ∧
      (uploadImage st true (some data) pt ts).detectionHistory.head?
        = some { plate := data.number_plate.getD "", confidence := data.confidence,
                 processTime := pt, timestamp := ts } ∧
      (uploadImage st true (some data) pt ts).storedHistory
        = some (uploadImage st true (some data) pt ts).detectionHistory ∧
      (captureFromWebcam st ok (some data) pt ts).detectionHistory.head?
        = some { plate := data.number_plate.getD "", confidence := data.confidence,
                 processTime := pt, timestamp := ts } ∧
      (captureFromWebcam st ok (some data) pt ts).storedHistory
        = some (captureFromWebcam st ok (some data) pt ts).detectionHistory) ∧
    (isDetected data = false →
      (uploadImage st true (some data) pt ts).detectionHistory = st.detectionHistory ∧
      (uploadImage st true (some data) pt ts).storedHistory = st.storedHistory ∧
      (captureFromWebcam st ok (some data) pt ts).detectionHistory = st.detectionHistory ∧
      (captureFromWebcam st ok (some data) pt ts).storedHistory = st.storedHistory) ∧
    ((uploadImage st false (some data) pt ts).detectionHistory = st.detectionHistory) ∧
    ((uploadImage st true none pt ts).detectionHistory = st.detectionHistory) ∧
    ((captureFromWebcam st ok none pt ts).detectionHistory = st.detectionHistory) := by
  have aux : ∀ (x : HistoryItem) (l : List HistoryItem),
      (if 10 < l.length + 1 then x :: List.take 9 l else x :: l).head? = some x := by
    intro x l
    split <;> rfl
  refine ⟨fun hd => ?_, fun hd => ?_, ?_, ?_, ?_⟩
  · refine ⟨?_, ?_, ?_, ?_, ?_⟩ <;>
      simp [uploadImage, captureFromWebcam, addToHistory, hf, hcam, hd] <;>
      try exact aux _ _
  · refine ⟨?_, ?_, ?_, ?_⟩ <;>
      simp [uploadImage, captureFromWebcam, hf, hcam, hd]
  · simp [uploadImage, hf]
  · simp [uploadImage, hf]
  · simp [captureFromWebcam, hcam]

/-- Witness for history_recording: at a concrete state and ok response,
the new entry is at the front of the history. -/
theorem history_recording_witness :
    (uploadImage stLive true (some respPlateC) 4 2).detectionHistory.head?
      = some { plate := (respPlateC.number_plate).getD "",
               confidence := respPlateC.confidence, processTime := 4, timestamp := 2 } :=
  ((history_recording stLive respPlateC true 4 2 rfl rfl).1 (by decide)).2.1

/-- A response obeying the spec invariant with a zero confidence. -/
def respZeroConf : RespData := { number_plate := some "MH12AB1234", confidence := some 0 }

/-- Claim C4 counterexample: a response satisfying the spec invariant
(plate present, confidence present and in [0,1]) whose confidence is 0.
The client renders it as a successful detection, yet displays the "N/A"
placeholder: the JS truthiness test data.confidence treats 0 like an
absent field. -/
theorem confidence_display_cex :
    DetectionResultInv respZeroConf ∧
    (uploadImage stLive true (some respZeroConf) 7 0).plateDetected = true ∧
    (uploadImage stLive true (some respZeroConf) 7 0).confText = ConfText.na := by
  refine ⟨fun _ => ⟨0, rfl, le_refl 0, by norm_num⟩, by decide, by decide⟩

/-- Claim C4 (amended): for a response the client renders as a
successful detection whose confidence field carries the value c, the
displayed confidence is the percent rendering of c when c is non-zero;
when c is present but zero the client displays the "N/A" placeholder
(the spec invariant confidence in the closed interval 0..1 admits 0). -/
theorem confidence_display (st : AppState) (data : RespData) (ok : Bool) (c : Rat)
    (pt ts : Nat) (hf : st.hasFile = true) (hcam : st.hasCamera = true)
    (hd : isDetected data = true) (hc : data.confidence = some c) :
    (¬c = 0 →
      (uploadImage st true (some data) pt ts).confText = ConfText.percent c ∧
      (captureFromWebcam st ok (some data) pt ts).confText = ConfText.percent c) ∧
    (c = 0 →
      (uploadImage st true (some data) pt ts).confText = ConfText.na ∧
      (captureFromWebcam st ok (some data) pt ts).confText = ConfText.na) := by
  constructor <;> intro h0 <;> constructor <;>
    simp [uploadImage, captureFromWebcam, addToHistory, renderConf, hf, hcam, hd, hc, h0]

/-- Witness for confidence_display: plate "ABC123" with confidence 1/2
displays the 50.00% rendering. -/
theorem confidence_display_witness :
    (uploadImage stLive true (some respPlateA) 7 0).confText = ConfText.percent (1/2) :=
  ((confidence_display stLive respPlateA true (1/2) 7 0 rfl rfl (by decide) rfl).1
    (by norm_num)).1

/-- A detected response forces a present, non-empty plate string. -/
theorem isDetected_getD_ne (data : RespData) (hd : isDetected data = true) :
    ¬data.number_plate.getD "" = "" := by
  rcases data with ⟨np, c⟩
  rcases np with _ | s
  · simp [isDetected] at hd
  · simp only [isDetected, Bool.and_eq_true, Bool.not_eq_true', beq_eq_false_iff_ne] at hd
    simpa using hd.1

/-- Claim C6: the plate display is never the empty string: starting from
a non-empty display, any run of uploadImage, captureFromWebcam or
clearAll leaves it non-empty (a detected plate, the no-plate message, an
error message or the waiting message); and a response whose number_plate
is the empty string fails the detection test, so it is rendered as the
no-plate outcome and the empty string is never shown as a plate. -/
theorem plateText_nonempty (st : AppState) (ok : Bool) (body : Option RespData)
    (conf : Option Rat) (pt ts : Nat) (h : ¬st.plateText = "") (hf : st.hasFile = true) :
    ¬(uploadImage st ok body pt ts).plateText = "" ∧
    ¬(captureFromWebcam st ok body pt ts).plateText = "" ∧
    ¬(clearAll st).plateText = "" ∧
    isDetected { number_plate := some "", confidence := conf } = false ∧
    (uploadImage st true (some { number_plate := some "", confidence := conf }) pt ts).plateText
      = noPlateMsg ∧
    (uploadImage st true (some { number_plate := some "", confidence := conf }) pt ts).downloadDisabled
      = true := by
  refine ⟨?_, ?_, by simp [clearAll], by simp [isDetected], ?_, ?_⟩
  · rcases ok with _ | _
    · simp [uploadImage, hf]
    · rcases body with _ | data
      · simp [uploadImage, hf]
      · by_cases hdet : isDetected data = true
        · simpa [uploadImage, hf, hdet, addToHistory] using isDetected_getD_ne data hdet
        · simp [uploadImage, hf, hdet, noPlateMsg]
  · by_cases hcam : st.hasCamera = false
    · simpa [captureFromWebcam, hcam] using h
    · rcases body with _ | data
      · simp [captureFromWebcam, hcam]
      · by_cases hdet : isDetected data = true
        · simpa [captureFromWebcam, hcam, hdet, addToHistory] using isDetected_getD_ne data hdet
        · simp [captureFromWebcam, hcam, hdet, noPlateMsg]
  · simp [uploadImage, hf, isDetected]
  · simp [uploadImage, hf, isDetected]

/-- Witness for plateText_nonempty at the concrete ready state. -/
theorem plateText_nonempty_witness :
    ¬(uploadImage stLive true (some respPlateA) 3 0).plateText = "" :=
  (plateText_nonempty stLive true (some respPlateA) (some (1/2)) 3 0 (by decide) rfl).1

/-- Claim C7 (spec-modelled Validator): if validate produces a plate
then the plate matches the configured plateFormatPattern, and an outcome
whose normalized text fails the pattern is rejected (validate returns
none), not corrected. -/
theorem validate_pattern (cfg : ValidatorConfig) (o : RecognitionOutcome) :
    (∀ p, validate cfg o = some p → cfg.plateFormatPattern p.plate = true) ∧
    (cfg.plateFormatPattern (normalizePlate o.raw) = false → validate cfg o = none) := by
  constructor
  · intro p hp
    simp only [validate] at hp
    split at hp
    · rename_i hcond
      rw [Bool.and_eq_true] at hcond
      injection hp with hpe
      rw [← hpe]
      exact hcond.2
    · exact absurd hp (by simp)
  · intro hfail
    simp only [validate]
    rw [hfail]
    simp

/-- A ten-character plate-format policy. -/
def cfgTN : ValidatorConfig := { plateFormatPattern := fun s => s.length == 10 }

/-- A raw engine outcome whose text normalizes to "TN09AB1234". -/
def outTN : RecognitionOutcome := { raw := "tn 09 ab 1234", confidence := 9/10 }

/-- Witness for validate_pattern: the accepted plate "TN09AB1234"
matches the configured pattern. -/
theorem validate_pattern_witness :
    validate cfgTN outTN = some { plate := "TN09AB1234", confidence := 9/10 } ∧
    cfgTN.plateFormatPattern "TN09AB1234" = true :=
  ⟨by rfl,
   (validate_pattern cfgTN outTN).1 { plate := "TN09AB1234", confidence := 9/10 } (by rfl)⟩

/-- The ready state displaying the empty string (unreachable through the
handlers, but downloadResult is total in the displayed text). -/
def stEmptyText : AppState := { stLive with plateText := "" }

/-- Claim C10 counterexample: with the displayed text equal to the empty
string, none of the four guard substrings occurs, so the claim's
"otherwise" branch asserts a file is generated; the code's truthiness
test rejects the empty string and shows the warning with no file. -/
theorem downloadResult_cex :
    strIncludes "" "Waiting" = false ∧ strIncludes "" "No plate" = false ∧
    strIncludes "" "Detecting" = false ∧ strIncludes "" "Error" = false ∧
    (downloadResult stEmptyText 0).2 = none ∧
    (downloadResult stEmptyText 0).1.notifications
      = stEmptyText.notifications ++ [downloadWarnNotif] := by
  decide

/-- Claim C10 (amended): if the displayed text contains "Waiting",
"No plate", "Detecting" or "Error", or is empty, no file is created and
a warning toast is shown; otherwise (non-empty text free of all four
substrings) a text file containing the displayed plate and a timestamp
is generated and a success toast is shown. -/
theorem downloadResult_spec (st : AppState) (now : Nat) :
    ((strIncludes st.plateText "Waiting" = true ∨ strIncludes st.plateText "No plate" = true ∨
      strIncludes st.plateText "Detecting" = true ∨ strIncludes st.plateText "Error" = true ∨
      st.plateText = "") →
      (downloadResult st now).2 = none ∧
      (downloadResult st now).1.notifications = st.notifications ++ [downloadWarnNotif]) ∧
    ((¬st.plateText = "" ∧ strIncludes st.plateText "Waiting" = false ∧
      strIncludes st.plateText "No plate" = false ∧
      strIncludes st.plateText "Detecting" = false ∧
      strIncludes st.plateText "Error" = false) →
      (downloadResult st now).2
        = some { content := "Detected Number Plate: " ++ st.plateText
                   ++ "\nTimestamp: " ++ toString now,
                 filename := "number_plate_" ++ toString now ++ ".txt" } ∧
      (downloadResult st now).1.notifications = st.notifications ++ [downloadSuccessNotif]) := by
  constructor
  · intro hbad
    rcases hbad with hb | hb | hb | hb | hb <;> simp [downloadResult, hb]
  · rintro ⟨h0, h1, h2, h3, h4⟩
    simp [downloadResult, h0, h1, h2, h3, h4]

/-- The ready state displaying a detected plate. -/
def stPlate : AppState := { stLive with plateText := "TN09AB1234" }

/-- Witness for downloadResult_spec: a displayed plate produces the
download file. -/
theorem downloadResult_spec_witness :
    (downloadResult stPlate 5).2
      = some { content := "Detected Number Plate: " ++ stPlate.plateText
                 ++ "\nTimestamp: " ++ toString 5,
               filename := "number_plate_" ++ toString 5 ++ ".txt" } :=
  ((downloadResult_spec stPlate 5).2
    ⟨by decide, by decide, by decide, by decide, by decide⟩).1

example : isDetected { number_plate := some "TN09AB1234", confidence := some (9/10) } = true := by decide
example : isDetected { number_plate := some "", confidence := some (9/10) } = false := by decide
example : isDetected { number_plate := some "No plate detected", confidence := none } = false := by decide
example : strIncludes "⚠️ Processing Error!" "Error" = true := by decide
example : strIncludes "TN09AB1234" "Error" = false := by decide
example : normalizePlate "tn 09 ab 1234" = "TN09AB1234" := by decide
